import Mathlib

/-!
Verification of the turn engine of `src/thonny/__main__.py`
("Escape Across the Great Gobi"), a single-session turn-based text game.

The Python module is shallowly embedded below:
* Python ints are `Int`; the pursuit gap `distance_behind`, the officer
  speed, the difficulty multiplier and the `random.uniform` draws are
  floats in the source and are modelled as `ℚ` (every float constant of
  the program — 0.08, 0.12, 0.16, 0.8, 1.0, 1.2, 1.5, 2.0 — is taken at
  its decimal value; at every point where the program truncates a float
  product with `int(...)`, namely `int(n * chance_modifier)` for
  n ∈ {3, 8, 18, 27, 32} and `int(raw * difficulty_multiplier)`, the
  IEEE-754 double result truncates to the same integer as the exact
  rational product, so the rational model agrees with the float code).
* Python `int(x)` (truncation toward zero) is `pytrunc`.
* `random.randint(a, b)` is modelled by `randint a b r` where `r : ℕ`
  ranges over arbitrary seeds: its image is exactly `[a, b]`, the
  support of the generator.  Each `random.random() < p` test is a `Bool`
  parameter, and each `random.uniform` draw a `ℚ` parameter.
* The achievements `set` is a `Finset String`; the inventory dict holds
  the two keys the program uses (`water`, `bandage`) as two `Int`s.
-/

namespace Gobi

/-- `TOTAL_DISTANCE = 200` (km to win). -/
def TOTAL_DISTANCE : Int := 200

/-- `clamp(v, a, b) = max(a, min(b, v))`. -/
def clamp {α : Type} [LinearOrder α] (v a b : α) : α := max a (min b v)

/-- Python `int()` on an exact rational: truncation toward zero.
`Int.div` is Lean's truncating division. -/
def pytrunc (q : ℚ) : Int := Int.tdiv q.num q.den

/-- Floor of a rational, executable (`Int./` floors for a positive
denominator). -/
def qfloor (q : ℚ) : Int := q.num / (q.den : Int)

/-- `random.randint(a, b)`: every seed `r` lands in `[a, b]` (for `a ≤ b`),
and every value of `[a, b]` is hit by some seed, so quantifying over `r`
quantifies over the generator's support. -/
def randint (a b : Int) (r : ℕ) : Int := a + (r : Int) % (b - a + 1)

/-- The three difficulty tags. -/
inductive Difficulty
  | EASY
  | NORMAL
  | HARD
deriving DecidableEq, Repr

/-- `{"EASY": 0.8, "NORMAL": 1.0, "HARD": 1.2}[difficulty]`. -/
def chance_modifier : Difficulty → ℚ
  | .EASY => 8/10
  | .NORMAL => 1
  | .HARD => 12/10

/-- `int(n * chance_modifier)` — the scaled-and-truncated event-bucket
ceiling used in `random_event`. -/
def bucketCeil (n : ℕ) (d : Difficulty) : Int := pytrunc ((n : ℚ) * chance_modifier d)

/-- The `Player` entity (`inventory` is the dict `{"water": _, "bandage": _}`). -/
structure Player where
  thirst : Int
  health : Int
  distance : Int
  water : Int
  bandage : Int
  score : Int
  achievements : Finset String
  oasis_found : Int
deriving DecidableEq

/-- `Player.__init__`. -/
def Player.init : Player :=
  { thirst := 0, health := 100, distance := 0, water := 5, bandage := 1,
    score := 0, achievements := ∅, oasis_found := 0 }

/-- The `Camel` entity. -/
structure Camel where
  stamina : Int
  health : Int
  sickness : Bool
deriving DecidableEq

/-- `Camel.__init__`. -/
def Camel.init : Camel := { stamina := 0, health := 100, sickness := false }

/-- The `Officers` entity (`distance_behind` is a float). -/
structure Officers where
  distance_behind : ℚ
deriving DecidableEq

/-- `Officers.__init__(start_behind)`. -/
def Officers.init (start_behind : ℚ) : Officers := { distance_behind := start_behind }

/-- The full mutable game state threaded through `game_loop`. -/
structure State where
  player : Player
  camel : Camel
  officers : Officers
deriving DecidableEq

/-- The session-immutable parameters of `game_loop`. -/
structure Params where
  difficulty : Difficulty
  officer_speed : ℚ
  diff_multiplier : ℚ
deriving DecidableEq

/-- Which branch of `random_event` fired (the returned message, abstracted
to its kind; `none` is the `return None` fall-through). -/
inductive EventKind
  | oasis
  | supply
  | sandstorm
  | bandits
  | sickness
deriving DecidableEq, Repr

/-- The random draws consumed by one call of `random_event`: one seed per
`randint`, one `Bool` per `random.random() < p` test. -/
structure EventRand where
  roll : ℕ
  supplyWater : ℕ
  supplyBandage : Bool
  sandThirst : ℕ
  sandCamel : ℕ
  sandHealth : ℕ
  banditSteal : Bool
  banditLost : ℕ
  banditHealth : ℕ
  banditCamelHealth : ℕ
  sickStamina : ℕ

/-- Branch classification of `random_event`: the cascade of range tests on
the roll, in source order (`roll <= int(3*m)` / `4 <= roll <= int(8*m)` /
`9 <= roll <= int(18*m)` / `19 <= roll <= int(27*m)` /
`28 <= roll <= int(32*m)` / `return None`). -/
def eventKind (d : Difficulty) (roll : Int) : Option EventKind :=
  if roll ≤ bucketCeil 3 d then some .oasis
  else if 4 ≤ roll ∧ roll ≤ bucketCeil 8 d then some .supply
  else if 9 ≤ roll ∧ roll ≤ bucketCeil 18 d then some .sandstorm
  else if 19 ≤ roll ∧ roll ≤ bucketCeil 27 d then some .bandits
  else if 28 ≤ roll ∧ roll ≤ bucketCeil 32 d then some .sickness
  else none

/-- `random_event(player, camel, officers, difficulty)`: state effect of
each branch, in source order, plus the kind of the returned message. -/
def random_event (s : State) (d : Difficulty) (r : EventRand) : State × Option EventKind :=
  let roll := randint 1 100 r.roll
  if roll ≤ bucketCeil 3 d then
    ({ s with
        player := { s.player with
          oasis_found := s.player.oasis_found + 1,
          thirst := 0,
          water := 5,
          achievements := insert "Found Oasis" s.player.achievements },
        camel := { s.camel with stamina := 0 } }, some .oasis)
  else if 4 ≤ roll ∧ roll ≤ bucketCeil 8 d then
    let found_water := randint 1 3 r.supplyWater
    ({ s with
        player := { s.player with
          water := s.player.water + found_water,
          bandage := s.player.bandage + (if r.supplyBandage then 1 else 0) } },
      some .supply)
  else if 9 ≤ roll ∧ roll ≤ bucketCeil 18 d then
    ({ s with
        player := { s.player with
          thirst := clamp (s.player.thirst + randint 1 2 r.sandThirst) 0 5,
          health := clamp (s.player.health - randint 0 10 r.sandHealth) 0 100 },
        camel := { s.camel with
          stamina := clamp (s.camel.stamina + randint 5 20 r.sandCamel) 0 100 } },
      some .sandstorm)
  else if 19 ≤ roll ∧ roll ≤ bucketCeil 27 d then
    let lost := if 0 < s.player.water ∧ r.banditSteal
      then randint 1 (min 3 s.player.water) r.banditLost else 0
    ({ s with
        player := { s.player with
          water := s.player.water - lost,
          health := clamp (s.player.health - randint 5 25 r.banditHealth) 0 100 },
        camel := { s.camel with
          health := clamp (s.camel.health - randint 0 15 r.banditCamelHealth) 0 100 } },
      some .bandits)
  else if 28 ≤ roll ∧ roll ≤ bucketCeil 32 d then
    ({ s with
        camel := { s.camel with
          sickness := true,
          stamina := clamp (s.camel.stamina + randint 10 25 r.sickStamina) 0 100 } },
      some .sickness)
  else (s, none)

/-- `calculate_score(player, camel, difficulty_multiplier)`. -/
def calculate_score (p : Player) (c : Camel) (difficulty_multiplier : ℚ) : Int :=
  let base := p.distance * 10
  let leftover := p.water * 20
  let health_bonus := p.health
  let camel_bonus := max 0 (100 - c.stamina)
  let oasis_bonus := p.oasis_found * 150
  let achievement_bonus := (p.achievements.card : Int) * 100
  let raw := base + leftover + health_bonus + camel_bonus + oasis_bonus + achievement_bonus
  pytrunc ((raw : ℚ) * difficulty_multiplier)

/-- `check_achievements(player, camel)`: the five unconditional `if`s, each
only ever inserting. -/
def check_achievements (s : State) : State :=
  let a0 := s.player.achievements
  let a1 := if TOTAL_DISTANCE ≤ s.player.distance then insert "Escape!" a0 else a0
  let a2 := if 10 ≤ s.player.water then insert "Hoarder" a1 else a1
  let a3 := if 1 ≤ s.player.oasis_found then insert "Oasis Seeker" a2 else a2
  let a4 := if s.camel.stamina < 20 then insert "Tough Ride" a3 else a3
  let a5 := if 90 ≤ s.player.health ∧ 90 ≤ s.camel.health then insert "Pristine" a4 else a4
  { s with player := { s.player with achievements := a5 } }

/-- `player.score = calculate_score(player, camel, diff_multiplier)`. -/
def setScore (m : ℚ) (s : State) : State :=
  { s with player := { s.player with score := calculate_score s.player s.camel m } }

/-- How a session ends (`forfeit` is the `Q` command). -/
inductive Outcome
  | thirstDeath
  | stranded
  | captured
  | woundDeath
  | win
  | forfeit
deriving DecidableEq, Repr

/-- The state effect of `finalize`: it re-runs `check_achievements` and only
prints; the score is not recomputed there. -/
def finalizeState (s : State) : State := check_achievements s

/-- `player.achievements.add("Escape!")` in the win branch. -/
def addEscape (s : State) : State :=
  { s with player := { s.player with achievements := insert "Escape!" s.player.achievements } }

/-- The post-action tail of one `game_loop` iteration: the five terminal
checks in source order (each sets the score, then `finalize`; the win
branch sets the score, then adds `"Escape!"`, then `finalize`), else
`check_achievements` followed by the score update. -/
def checkEndings (m : ℚ) (s : State) : Option Outcome × State :=
  if 5 ≤ s.player.thirst then (some .thirstDeath, finalizeState (setScore m s))
  else if 100 ≤ s.camel.stamina then (some .stranded, finalizeState (setScore m s))
  else if s.officers.distance_behind ≤ 0 then (some .captured, finalizeState (setScore m s))
  else if s.player.health ≤ 0 then (some .woundDeath, finalizeState (setScore m s))
  else if TOTAL_DISTANCE ≤ s.player.distance then
    (some .win, finalizeState (addEscape (setScore m s)))
  else (none, setScore m (check_achievements s))

/-- Random draws of the `B` (moderate move) branch. -/
structure MoveModRand where
  travel : ℕ
  stamGain : ℕ
  officerFactor : ℚ
  event : EventRand

/-- Random draws of the `C` (full-speed move) branch. -/
structure MoveFastRand where
  travel : ℕ
  thirstGain : ℕ
  stamGain : ℕ
  officerFactor : ℚ
  eventHappens : Bool
  event : EventRand

/-- Random draws of the `D` (rest) branch. -/
structure RestRand where
  recovered : ℕ
  officerGain : ℕ
  eventHappens : Bool
  event : EventRand

/-- One player command together with the random draws its branch consumes. -/
inductive Action
  | drink
  | moveModerate (r : MoveModRand)
  | moveFast (r : MoveFastRand)
  | rest (r : RestRand)
  | useBandage (heal : ℕ)
  | status
  | save
  | quit

/-- The `A` branch: drink if any water is left. -/
def applyDrink (s : State) : State :=
  if 0 < s.player.water then
    { s with player := { s.player with
        water := s.player.water - 1,
        thirst := 0,
        achievements := insert "Hydrated" s.player.achievements } }
  else s

/-- The `B` branch: moderate move, officers advance, then a random event
(always attempted). -/
def applyMoveModerate (p : Params) (s : State) (r : MoveModRand) : State × Option EventKind :=
  let travel := randint 5 12 r.travel
  let db := clamp (s.officers.distance_behind - (travel : ℚ) * (p.officer_speed * r.officerFactor)) (-50) 1000
  let s1 : State := { s with
    player := { s.player with
      distance := s.player.distance + travel,
      thirst := clamp (s.player.thirst + 1) 0 5 },
    camel := { s.camel with
      stamina := clamp (s.camel.stamina + randint 5 12 r.stamGain) 0 100 },
    officers := { distance_behind := db } }
  random_event s1 p.difficulty r.event

/-- The `C` branch: full-speed move; the event fires when
`random.random() < 0.6`. -/
def applyMoveFast (p : Params) (s : State) (r : MoveFastRand) : State × Option EventKind :=
  let travel := randint 10 20 r.travel
  let db := clamp (s.officers.distance_behind - (travel : ℚ) * (p.officer_speed * r.officerFactor)) (-50) 1000
  let s1 : State := { s with
    player := { s.player with
      distance := s.player.distance + travel,
      thirst := clamp (s.player.thirst + randint 1 2 r.thirstGain) 0 5 },
    camel := { s.camel with
      stamina := clamp (s.camel.stamina + randint 10 25 r.stamGain) 0 100 },
    officers := { distance_behind := db } }
  if r.eventHappens then random_event s1 p.difficulty r.event else (s1, none)

/-- The `D` branch: rest; the event fires when `random.random() < 0.12`. -/
def applyRest (p : Params) (s : State) (r : RestRand) : State × Option EventKind :=
  let recovered := randint 10 30 r.recovered
  let db := clamp (s.officers.distance_behind + (randint 7 14 r.officerGain : ℚ) * (p.officer_speed * 10)) (-50) 1000
  let s1 : State := { s with
    player := { s.player with thirst := clamp (s.player.thirst + 1) 0 5 },
    camel := { s.camel with stamina := clamp (s.camel.stamina - recovered) 0 100 },
    officers := { distance_behind := db } }
  if r.eventHappens then random_event s1 p.difficulty r.event else (s1, none)

/-- The `E` branch: use a bandage if any is left. -/
def applyUseBandage (s : State) (heal : ℕ) : State :=
  if 0 < s.player.bandage then
    { s with player := { s.player with
        bandage := s.player.bandage - 1,
        health := clamp (s.player.health + randint 10 30 heal) 0 100 } }
  else s

/-- One full `game_loop` iteration for one command: the command branch,
then the shared post-action tail.  `S` and `F` `continue` without reaching
the terminal checks; `Q` finalizes directly. -/
def turn (p : Params) (s : State) (a : Action) : Option Outcome × State :=
  match a with
  | .quit => (some .forfeit, finalizeState (setScore p.diff_multiplier s))
  | .save => (none, s)
  | .status => (none, s)
  | .drink => checkEndings p.diff_multiplier (applyDrink s)
  | .moveModerate r => checkEndings p.diff_multiplier (applyMoveModerate p s r).1
  | .moveFast r => checkEndings p.diff_multiplier (applyMoveFast p s r).1
  | .rest r => checkEndings p.diff_multiplier (applyRest p s r).1
  | .useBandage heal => checkEndings p.diff_multiplier (applyUseBandage s heal)

/-- Run a whole sequence of commands. -/
def run (p : Params) (s : State) (acts : List Action) : State :=
  acts.foldl (fun t a => (turn p t a).2) s

/-- `choose_difficulty()`: the mapping from the menu input to
`(tag, officer_speed, diff_multiplier)`; any other input reprompts. -/
def choose_difficulty (c : String) : Option (Difficulty × ℚ × ℚ) :=
  if c = "1" then some (.EASY, 8/100, 1)
  else if c = "2" then some (.NORMAL, 12/100, 15/10)
  else if c = "3" then some (.HARD, 16/100, 2)
  else none

/-- `start_behind=20 if difficulty == "NORMAL" else (25 if difficulty == "EASY" else 15)`. -/
def start_behind (d : Difficulty) : ℚ :=
  if d = .NORMAL then 20 else if d = .EASY then 25 else 15

/-- The session parameters a new game fixes for each difficulty choice. -/
def newGameParams (d : Difficulty) : Params :=
  match d with
  | .EASY => { difficulty := .EASY, officer_speed := 8/100, diff_multiplier := 1 }
  | .NORMAL => { difficulty := .NORMAL, officer_speed := 12/100, diff_multiplier := 15/10 }
  | .HARD => { difficulty := .HARD, officer_speed := 16/100, diff_multiplier := 2 }

/-- The fresh new-game state (`Player()`, `Camel()`, `Officers(start_behind=...)`). -/
def initState (d : Difficulty) : State :=
  { player := Player.init, camel := Camel.init, officers := Officers.init (start_behind d) }

/-- The persisted `player` sub-record; `none` models an absent key. -/
structure PlayerSnap where
  thirst : Option Int
  health : Option Int
  distance : Option Int
  inventory : Option (Int × Int)
  score : Option Int
  oasis_found : Option Int
  achievements : Option (List String)

/-- The persisted `camel` sub-record. -/
structure CamelSnap where
  stamina : Option Int
  health : Option Int
  sickness : Option Bool

/-- The persisted `officers` sub-record. -/
structure OfficersSnap where
  distance_behind : Option ℚ

/-- The persisted snapshot written by the `S` branch of `game_loop`. -/
structure Snapshot where
  player : PlayerSnap
  camel : CamelSnap
  officers : OfficersSnap
  difficulty : Option Difficulty
  officer_speed : Option ℚ
  diff_multiplier : Option ℚ

/-- The `S` branch: serialize the full state.  `list(player.achievements)`
enumerates the set in an unspecified order, so the serialized list is a
parameter `achList`. -/
def saveSnapshot (p : Params) (s : State) (achList : List String) : Snapshot :=
  { player := {
      thirst := some s.player.thirst,
      health := some s.player.health,
      distance := some s.player.distance,
      inventory := some (s.player.water, s.player.bandage),
      score := some s.player.score,
      oasis_found := some s.player.oasis_found,
      achievements := some achList },
    camel := {
      stamina := some s.camel.stamina,
      health := some s.camel.health,
      sickness := some s.camel.sickness },
    officers := { distance_behind := some s.officers.distance_behind },
    difficulty := some p.difficulty,
    officer_speed := some p.officer_speed,
    diff_multiplier := some p.diff_multiplier }

/-- The restore branch of `play_game`: every field comes from
`dict.get(key, default)` with the documented default, and the achievements
list is turned back into a set. -/
def loadState (snap : Snapshot) : State × Params :=
  let inv := snap.player.inventory.getD (5, 1)
  let pl : Player := {
    thirst := snap.player.thirst.getD 0,
    health := snap.player.health.getD 100,
    distance := snap.player.distance.getD 0,
    water := inv.1,
    bandage := inv.2,
    score := snap.player.score.getD 0,
    oasis_found := snap.player.oasis_found.getD 0,
    achievements := (snap.player.achievements.getD []).toFinset }
  let ca : Camel := {
    stamina := snap.camel.stamina.getD 0,
    health := snap.camel.health.getD 100,
    sickness := snap.camel.sickness.getD false }
  let off : Officers := { distance_behind := snap.officers.distance_behind.getD 20 }
  let pa : Params := {
    difficulty := snap.difficulty.getD .NORMAL,
    officer_speed := snap.officer_speed.getD (12/100),
    diff_multiplier := snap.diff_multiplier.getD (15/10) }
  ({ player := pl, camel := ca, officers := off }, pa)

/-! ### Helper lemmas -/

theorem clamp_bounds {α : Type} [LinearOrder α] (v a b : α) (h : a ≤ b) :
    a ≤ clamp v a b ∧ clamp v a b ≤ b := by
  unfold clamp
  exact ⟨le_max_left a _, max_le h (min_le_left b v)⟩

theorem randint_le {a b : Int} (r : ℕ) (h : a ≤ b) :
    a ≤ randint a b r ∧ randint a b r ≤ b := by
  unfold randint
  have h1 : (0 : Int) < b - a + 1 := by omega
  have h2 : (0 : Int) ≤ (r : Int) % (b - a + 1) := Int.emod_nonneg _ (by omega)
  have h3 : (r : Int) % (b - a + 1) < b - a + 1 := Int.emod_lt_of_pos _ h1
  omega

theorem pytrunc_eq_floor {q : ℚ} (h : 0 ≤ q) : pytrunc q = ⌊q⌋ := by
  unfold pytrunc
  rw [Rat.floor_def]
  exact Int.tdiv_eq_ediv (Rat.num_nonneg.mpr h) (Int.natCast_nonneg _)

theorem bucketCeil_values :
    bucketCeil 3 .EASY = 2 ∧ bucketCeil 8 .EASY = 6 ∧ bucketCeil 18 .EASY = 14 ∧
    bucketCeil 27 .EASY = 21 ∧ bucketCeil 32 .EASY = 25 ∧
    bucketCeil 3 .NORMAL = 3 ∧ bucketCeil 8 .NORMAL = 8 ∧ bucketCeil 18 .NORMAL = 18 ∧
    bucketCeil 27 .NORMAL = 27 ∧ bucketCeil 32 .NORMAL = 32 ∧
    bucketCeil 3 .HARD = 3 ∧ bucketCeil 8 .HARD = 9 ∧ bucketCeil 18 .HARD = 21 ∧
    bucketCeil 27 .HARD = 32 ∧ bucketCeil 32 .HARD = 38 := by
  refine ⟨?_, ?_, ?_, ?_, ?_, ?_, ?_, ?_, ?_, ?_, ?_, ?_, ?_, ?_, ?_⟩ <;>
    (unfold bucketCeil chance_modifier; rw [pytrunc_eq_floor (by norm_num)]; norm_num)

theorem random_event_kind (s : State) (d : Difficulty) (r : EventRand) :
    (random_event s d r).2 = eventKind d (randint 1 100 r.roll) := by
  unfold random_event eventKind
  dsimp only
  split_ifs <;> rfl

/-! ### C10: per-difficulty constants -/

/-- C10: the per-difficulty constants fixed at new-game start are officer
closing-speed 0.08 / 0.12 / 0.16, score multiplier 1.0 / 1.5 / 2.0, and
initial pursuit distance-behind 25 / 20 / 15 km for EASY / NORMAL / HARD. -/
theorem c10_difficulty_constants :
    choose_difficulty "1" = some (.EASY, 0.08, 1.0) ∧
    choose_difficulty "2" = some (.NORMAL, 0.12, 1.5) ∧
    choose_difficulty "3" = some (.HARD, 0.16, 2.0) ∧
    start_behind .EASY = 25 ∧ start_behind .NORMAL = 20 ∧ start_behind .HARD = 15 ∧
    newGameParams .EASY = { difficulty := .EASY, officer_speed := 0.08, diff_multiplier := 1.0 } ∧
    newGameParams .NORMAL = { difficulty := .NORMAL, officer_speed := 0.12, diff_multiplier := 1.5 } ∧
    newGameParams .HARD = { difficulty := .HARD, officer_speed := 0.16, diff_multiplier := 2.0 } := by
  refine ⟨?_, ?_, ?_, ?_, ?_, ?_, ?_, ?_, ?_⟩ <;>
    simp [choose_difficulty, start_behind, newGameParams, Params.mk.injEq] <;> norm_num

/-! ### C7: an oasis roll of exactly 1 under NORMAL difficulty -/

/-- C7: whenever the `random_event` draw is exactly 1 under NORMAL
difficulty, afterwards thirst is 0, the water count is exactly 5, camel
stamina is 0, "Found Oasis" is unlocked, and the oasis counter grew by 1. -/
theorem c7_oasis_roll_one (s : State) (r : EventRand) (h : randint 1 100 r.roll = 1) :
    ((random_event s .NORMAL r).1).player.thirst = 0 ∧
    ((random_event s .NORMAL r).1).player.water = 5 ∧
    ((random_event s .NORMAL r).1).camel.stamina = 0 ∧
    "Found Oasis" ∈ ((random_event s .NORMAL r).1).player.achievements ∧
    ((random_event s .NORMAL r).1).player.oasis_found = s.player.oasis_found + 1 := by
  unfold random_event
  rw [h, bucketCeil_values.2.2.2.2.2.1]
  norm_num

/-- Witness for C7 at the fresh NORMAL state and the all-zero draw record
(seed 0 gives `randint 1 100 0 = 1`). -/
theorem c7_oasis_roll_one_witness :
    ((random_event (initState .NORMAL) .NORMAL ⟨0, 0, false, 0, 0, 0, false, 0, 0, 0, 0⟩).1).player.thirst = 0 ∧
    ((random_event (initState .NORMAL) .NORMAL ⟨0, 0, false, 0, 0, 0, false, 0, 0, 0, 0⟩).1).player.water = 5 ∧
    ((random_event (initState .NORMAL) .NORMAL ⟨0, 0, false, 0, 0, 0, false, 0, 0, 0, 0⟩).1).camel.stamina = 0 ∧
    "Found Oasis" ∈ ((random_event (initState .NORMAL) .NORMAL ⟨0, 0, false, 0, 0, 0, false, 0, 0, 0, 0⟩).1).player.achievements ∧
    ((random_event (initState .NORMAL) .NORMAL ⟨0, 0, false, 0, 0, 0, false, 0, 0, 0, 0⟩).1).player.oasis_found = (initState .NORMAL).player.oasis_found + 1 :=
  c7_oasis_roll_one (initState .NORMAL) ⟨0, 0, false, 0, 0, 0, false, 0, 0, 0, 0⟩ (by decide)

/-! ### C9: loading substitutes documented defaults for missing fields -/

/-- C9: loading a snapshot never fails, and each absent field is replaced
by its documented default (thirst 0, health 100, distance 0, water 5,
bandage 1, score 0, oasis counter 0, empty achievement set, camel stamina
0, camel health 100, sickness false, pursuit 20, difficulty NORMAL,
officer speed 0.12, multiplier 1.5). -/
theorem c9_load_defaults (snap : Snapshot) :
    (snap.player.thirst = none → (loadState snap).1.player.thirst = 0) ∧
    (snap.player.health = none → (loadState snap).1.player.health = 100) ∧
    (snap.player.distance = none → (loadState snap).1.player.distance = 0) ∧
    (snap.player.inventory = none →
      (loadState snap).1.player.water = 5 ∧ (loadState snap).1.player.bandage = 1) ∧
    (snap.player.score = none → (loadState snap).1.player.score = 0) ∧
    (snap.player.oasis_found = none → (loadState snap).1.player.oasis_found = 0) ∧
    (snap.player.achievements = none → (loadState snap).1.player.achievements = ∅) ∧
    (snap.camel.stamina = none → (loadState snap).1.camel.stamina = 0) ∧
    (snap.camel.health = none → (loadState snap).1.camel.health = 100) ∧
    (snap.camel.sickness = none → (loadState snap).1.camel.sickness = false) ∧
    (snap.officers.distance_behind = none → (loadState snap).1.officers.distance_behind = 20) ∧
    (snap.difficulty = none → (loadState snap).2.difficulty = .NORMAL) ∧
    (snap.officer_speed = none → (loadState snap).2.officer_speed = 0.12) ∧
    (snap.diff_multiplier = none → (loadState snap).2.diff_multiplier = 1.5) := by
  refine ⟨?_, ?_, ?_, ?_, ?_, ?_, ?_, ?_, ?_, ?_, ?_, ?_, ?_, ?_⟩ <;> intro h <;>
    simp [loadState, h] <;> norm_num

/-- The fully-absent snapshot, used to witness C9. -/
def emptySnapshot : Snapshot :=
  ⟨⟨none, none, none, none, none, none, none⟩, ⟨none, none, none⟩, ⟨none⟩, none, none, none⟩

/-- Witness for C9: loading the fully-absent snapshot yields every default. -/
theorem c9_load_defaults_witness :
    (loadState emptySnapshot).1.player.thirst = 0 ∧
    (loadState emptySnapshot).1.player.health = 100 ∧
    (loadState emptySnapshot).1.player.distance = 0 ∧
    ((loadState emptySnapshot).1.player.water = 5 ∧ (loadState emptySnapshot).1.player.bandage = 1) ∧
    (loadState emptySnapshot).1.player.score = 0 ∧
    (loadState emptySnapshot).1.player.oasis_found = 0 ∧
    (loadState emptySnapshot).1.player.achievements = ∅ ∧
    (loadState emptySnapshot).1.camel.stamina = 0 ∧
    (loadState emptySnapshot).1.camel.health = 100 ∧
    (loadState emptySnapshot).1.camel.sickness = false ∧
    (loadState emptySnapshot).1.officers.distance_behind = 20 ∧
    (loadState emptySnapshot).2.difficulty = .NORMAL ∧
    (loadState emptySnapshot).2.officer_speed = 0.12 ∧
    (loadState emptySnapshot).2.diff_multiplier = 1.5 := by
  obtain ⟨h1, h2, h3, h4, h5, h6, h7, h8, h9, h10, h11, h12, h13, h14⟩ :=
    c9_load_defaults emptySnapshot
  exact ⟨h1 rfl, h2 rfl, h3 rfl, h4 rfl, h5 rfl, h6 rfl, h7 rfl, h8 rfl, h9 rfl,
    h10 rfl, h11 rfl, h12 rfl, h13 rfl, h14 rfl⟩

/-! ### C4: save → load round trip -/

/-- C4: saving and reloading reproduces the state and session parameters
exactly, whatever order the achievement set was serialized in. -/
theorem c4_save_load_roundtrip (p : Params) (s : State) (l : List String)
    (h : l.toFinset = s.player.achievements) :
    loadState (saveSnapshot p s l) = (s, p) := by
  simp only [loadState, saveSnapshot, Option.getD_some]
  rw [h]

/-- A concrete mid-game state with two achievements, used to witness C4. -/
def midGameState : State :=
  ⟨⟨2, 77, 42, 3, 0, 1234, insert "Hydrated" (insert "Tough Ride" ∅), 1⟩, ⟨55, 88, true⟩, ⟨12⟩⟩

/-- Witness for C4 at a concrete mid-game state whose achievement set is
serialized in a non-canonical order. -/
theorem c4_save_load_roundtrip_witness :
    loadState (saveSnapshot (newGameParams .HARD) midGameState ["Tough Ride", "Hydrated"]) =
      (midGameState, newGameParams .HARD) :=
  c4_save_load_roundtrip (newGameParams .HARD) midGameState ["Tough Ride", "Hydrated"] (by decide)

/-! ### The reachability invariant (C2, C3) -/

/-- The numeric-range invariant maintained by every action: the bounds
claimed by C2 plus non-negativity of the inventory counts and of the
distance (needed to push the invariant through the bandit event and to
ground the score formula). -/
def FullInv (s : State) : Prop :=
  0 ≤ s.player.thirst ∧ s.player.thirst ≤ 5 ∧
  0 ≤ s.player.health ∧ s.player.health ≤ 100 ∧
  0 ≤ s.camel.stamina ∧ s.camel.stamina ≤ 100 ∧
  0 ≤ s.camel.health ∧ s.camel.health ≤ 100 ∧
  -50 ≤ s.officers.distance_behind ∧ s.officers.distance_behind ≤ 1000 ∧
  0 ≤ s.player.water ∧ 0 ≤ s.player.bandage ∧ 0 ≤ s.player.distance

theorem inv_initState (d : Difficulty) : FullInv (initState d) := by
  cases d <;> refine ⟨?_, ?_, ?_, ?_, ?_, ?_, ?_, ?_, ?_, ?_, ?_, ?_, ?_⟩ <;> decide

theorem bandit_water_nonneg (w : Int) (hw : 0 ≤ w) (b : Bool) (r' : ℕ) :
    0 ≤ w - (if 0 < w ∧ b = true then randint 1 (min 3 w) r' else 0) := by
  split_ifs with hc
  · have hl := randint_le r' (show (1:ℤ) ≤ min 3 w by omega)
    omega
  · omega

theorem inv_random_event (d : Difficulty) (r : EventRand) {s : State} (h : FullInv s) :
    FullInv (random_event s d r).1 := by
  obtain ⟨h1, h2, h3, h4, h5, h6, h7, h8, h9, h10, h11, h12, h13⟩ := h
  unfold random_event
  dsimp only
  by_cases e1 : randint 1 100 r.roll ≤ bucketCeil 3 d
  · rw [if_pos e1]
    exact ⟨le_refl 0, by norm_num, h3, h4, le_refl 0, by norm_num, h7, h8, h9, h10,
      by norm_num, h12, h13⟩
  rw [if_neg e1]
  by_cases e2 : 4 ≤ randint 1 100 r.roll ∧ randint 1 100 r.roll ≤ bucketCeil 8 d
  · rw [if_pos e2]
    refine ⟨h1, h2, h3, h4, h5, h6, h7, h8, h9, h10, ?_, ?_, h13⟩
    · dsimp only
      have hw := randint_le r.supplyWater (show (1:ℤ) ≤ 3 by norm_num)
      omega
    · dsimp only
      cases r.supplyBandage <;> simp <;> omega
  rw [if_neg e2]
  by_cases e3 : 9 ≤ randint 1 100 r.roll ∧ randint 1 100 r.roll ≤ bucketCeil 18 d
  · rw [if_pos e3]
    exact ⟨(clamp_bounds _ 0 5 (by norm_num)).1, (clamp_bounds _ 0 5 (by norm_num)).2,
      (clamp_bounds _ 0 100 (by norm_num)).1, (clamp_bounds _ 0 100 (by norm_num)).2,
      (clamp_bounds _ 0 100 (by norm_num)).1, (clamp_bounds _ 0 100 (by norm_num)).2,
      h7, h8, h9, h10, h11, h12, h13⟩
  rw [if_neg e3]
  by_cases e4 : 19 ≤ randint 1 100 r.roll ∧ randint 1 100 r.roll ≤ bucketCeil 27 d
  · rw [if_pos e4]
    refine ⟨h1, h2, (clamp_bounds _ 0 100 (by norm_num)).1, (clamp_bounds _ 0 100 (by norm_num)).2,
      h5, h6, (clamp_bounds _ 0 100 (by norm_num)).1, (clamp_bounds _ 0 100 (by norm_num)).2,
      h9, h10, ?_, h12, h13⟩
    dsimp only
    exact bandit_water_nonneg s.player.water h11 r.banditSteal r.banditLost
  rw [if_neg e4]
  by_cases e5 : 28 ≤ randint 1 100 r.roll ∧ randint 1 100 r.roll ≤ bucketCeil 32 d
  · rw [if_pos e5]
    exact ⟨h1, h2, h3, h4, (clamp_bounds _ 0 100 (by norm_num)).1,
      (clamp_bounds _ 0 100 (by norm_num)).2, h7, h8, h9, h10, h11, h12, h13⟩
  rw [if_neg e5]
  exact ⟨h1, h2, h3, h4, h5, h6, h7, h8, h9, h10, h11, h12, h13⟩

theorem inv_ite_event (d : Difficulty) (r : EventRand) (b : Bool) {s : State} (h : FullInv s) :
    FullInv (if b then random_event s d r else (s, none)).1 := by
  cases b
  · simpa using h
  · simpa using inv_random_event d r h

theorem inv_applyDrink {s : State} (h : FullInv s) : FullInv (applyDrink s) := by
  obtain ⟨h1, h2, h3, h4, h5, h6, h7, h8, h9, h10, h11, h12, h13⟩ := h
  unfold applyDrink
  split_ifs with hw
  · refine ⟨le_refl 0, by norm_num, h3, h4, h5, h6, h7, h8, h9, h10, ?_, h12, h13⟩
    dsimp only
    omega
  · exact ⟨h1, h2, h3, h4, h5, h6, h7, h8, h9, h10, h11, h12, h13⟩

theorem inv_applyMoveModerate (p : Params) (r : MoveModRand) {s : State} (h : FullInv s) :
    FullInv (applyMoveModerate p s r).1 := by
  obtain ⟨h1, h2, h3, h4, h5, h6, h7, h8, h9, h10, h11, h12, h13⟩ := h
  unfold applyMoveModerate
  dsimp only
  apply inv_random_event
  refine ⟨(clamp_bounds _ 0 5 (by norm_num)).1, (clamp_bounds _ 0 5 (by norm_num)).2,
    h3, h4, (clamp_bounds _ 0 100 (by norm_num)).1, (clamp_bounds _ 0 100 (by norm_num)).2,
    h7, h8, (clamp_bounds _ (-50) 1000 (by norm_num)).1,
    (clamp_bounds _ (-50) 1000 (by norm_num)).2, h11, h12, ?_⟩
  dsimp only
  have ht := randint_le r.travel (show (5:ℤ) ≤ 12 by norm_num)
  omega

theorem inv_applyMoveFast (p : Params) (r : MoveFastRand) {s : State} (h : FullInv s) :
    FullInv (applyMoveFast p s r).1 := by
  obtain ⟨h1, h2, h3, h4, h5, h6, h7, h8, h9, h10, h11, h12, h13⟩ := h
  unfold applyMoveFast
  dsimp only
  apply inv_ite_event
  refine ⟨(clamp_bounds _ 0 5 (by norm_num)).1, (clamp_bounds _ 0 5 (by norm_num)).2,
    h3, h4, (clamp_bounds _ 0 100 (by norm_num)).1, (clamp_bounds _ 0 100 (by norm_num)).2,
    h7, h8, (clamp_bounds _ (-50) 1000 (by norm_num)).1,
    (clamp_bounds _ (-50) 1000 (by norm_num)).2, h11, h12, ?_⟩
  dsimp only
  have ht := randint_le r.travel (show (10:ℤ) ≤ 20 by norm_num)
  omega

theorem inv_applyRest (p : Params) (r : RestRand) {s : State} (h : FullInv s) :
    FullInv (applyRest p s r).1 := by
  obtain ⟨h1, h2, h3, h4, h5, h6, h7, h8, h9, h10, h11, h12, h13⟩ := h
  unfold applyRest
  dsimp only
  apply inv_ite_event
  exact ⟨(clamp_bounds _ 0 5 (by norm_num)).1, (clamp_bounds _ 0 5 (by norm_num)).2,
    h3, h4, (clamp_bounds _ 0 100 (by norm_num)).1, (clamp_bounds _ 0 100 (by norm_num)).2,
    h7, h8, (clamp_bounds _ (-50) 1000 (by norm_num)).1,
    (clamp_bounds _ (-50) 1000 (by norm_num)).2, h11, h12, h13⟩

theorem inv_applyUseBandage (heal : ℕ) {s : State} (h : FullInv s) :
    FullInv (applyUseBandage s heal) := by
  obtain ⟨h1, h2, h3, h4, h5, h6, h7, h8, h9, h10, h11, h12, h13⟩ := h
  unfold applyUseBandage
  split_ifs with hb
  · refine ⟨h1, h2, (clamp_bounds _ 0 100 (by norm_num)).1,
      (clamp_bounds _ 0 100 (by norm_num)).2, h5, h6, h7, h8, h9, h10, h11, ?_, h13⟩
    dsimp only
    omega
  · exact ⟨h1, h2, h3, h4, h5, h6, h7, h8, h9, h10, h11, h12, h13⟩

theorem inv_checkEndings {m : ℚ} {s : State} (h : FullInv s) : FullInv (checkEndings m s).2 := by
  unfold checkEndings
  split_ifs <;> exact h

theorem inv_turn (p : Params) (a : Action) {s : State} (h : FullInv s) :
    FullInv (turn p s a).2 := by
  cases a with
  | drink => exact inv_checkEndings (inv_applyDrink h)
  | moveModerate r => exact inv_checkEndings (inv_applyMoveModerate p r h)
  | moveFast r => exact inv_checkEndings (inv_applyMoveFast p r h)
  | rest r => exact inv_checkEndings (inv_applyRest p r h)
  | useBandage heal => exact inv_checkEndings (inv_applyUseBandage heal h)
  | status => exact h
  | save => exact h
  | quit => exact h

theorem inv_run (p : Params) (acts : List Action) {s : State} (h : FullInv s) :
    FullInv (run p s acts) := by
  induction acts generalizing s with
  | nil => exact h
  | cons a as ih => exact ih (inv_turn p a h)

/-- C2: from the fresh new-game state, after every sequence of actions the
state satisfies thirst ∈ [0,5], player health ∈ [0,100], camel stamina ∈
[0,100], camel health ∈ [0,100] and pursuit distance-behind ∈ [-50,1000]. -/
theorem c2_invariants (d : Difficulty) (acts : List Action) :
    0 ≤ (run (newGameParams d) (initState d) acts).player.thirst ∧
    (run (newGameParams d) (initState d) acts).player.thirst ≤ 5 ∧
    0 ≤ (run (newGameParams d) (initState d) acts).player.health ∧
    (run (newGameParams d) (initState d) acts).player.health ≤ 100 ∧
    0 ≤ (run (newGameParams d) (initState d) acts).camel.stamina ∧
    (run (newGameParams d) (initState d) acts).camel.stamina ≤ 100 ∧
    0 ≤ (run (newGameParams d) (initState d) acts).camel.health ∧
    (run (newGameParams d) (initState d) acts).camel.health ≤ 100 ∧
    -50 ≤ (run (newGameParams d) (initState d) acts).officers.distance_behind ∧
    (run (newGameParams d) (initState d) acts).officers.distance_behind ≤ 1000 := by
  obtain ⟨h1, h2, h3, h4, h5, h6, h7, h8, h9, h10, h11, h12, h13⟩ :=
    inv_run (newGameParams d) acts (inv_initState d)
  exact ⟨h1, h2, h3, h4, h5, h6, h7, h8, h9, h10⟩

/-! ### C3: the score formula (C3) -/

/-- C3: for every state within the numeric invariant (every state reachable
from a fresh start) and non-negative multiplier, the computed score is
exactly `⌊multiplier * (10*distance + 20*water + health +
max 0 (100 - stamina) + 150*oases + 100*achievements)⌋` and is
non-negative; `calculate_score` reads nothing but the current player,
camel and multiplier, so the score is a pure function of those. -/
theorem c3_score_formula (p : Player) (c : Camel) (m : ℚ)
    (hd : 0 ≤ p.distance) (hw : 0 ≤ p.water) (hh : 0 ≤ p.health)
    (ho : 0 ≤ p.oasis_found) (hm : 0 ≤ m) :
    calculate_score p c m =
      ⌊m * ((10 * p.distance + 20 * p.water + p.health + max 0 (100 - c.stamina) +
        150 * p.oasis_found + 100 * (p.achievements.card : Int) : Int) : ℚ)⌋ ∧
    0 ≤ calculate_score p c m := by
  have hmax : (0:ℤ) ≤ max 0 (100 - c.stamina) := le_max_left 0 _
  have hcard : (0:ℤ) ≤ (p.achievements.card : Int) := Int.natCast_nonneg _
  have hraw : (0:ℤ) ≤ p.distance * 10 + p.water * 20 + p.health + max 0 (100 - c.stamina) +
      p.oasis_found * 150 + (p.achievements.card : Int) * 100 := by omega
  have hq : (0:ℚ) ≤ ((p.distance * 10 + p.water * 20 + p.health + max 0 (100 - c.stamina) +
      p.oasis_found * 150 + (p.achievements.card : Int) * 100 : Int) : ℚ) * m :=
    mul_nonneg (by exact_mod_cast hraw) hm
  unfold calculate_score
  dsimp only
  rw [pytrunc_eq_floor hq]
  constructor
  · rw [mul_comm]
    congr 2
    push_cast
    ring
  · exact Int.floor_nonneg.mpr hq

/-- Witness for C3 at the fresh player and camel with the NORMAL multiplier. -/
theorem c3_score_formula_witness :
    calculate_score Player.init Camel.init 1.5 =
      ⌊(1.5 : ℚ) * ((10 * Player.init.distance + 20 * Player.init.water + Player.init.health +
        max 0 (100 - Camel.init.stamina) + 150 * Player.init.oasis_found +
        100 * (Player.init.achievements.card : Int) : Int) : ℚ)⌋ ∧
    0 ≤ calculate_score Player.init Camel.init 1.5 :=
  c3_score_formula Player.init Camel.init 1.5 (by decide) (by decide) (by decide) (by decide)
    (by norm_num)

/-! ### C8: achievements only grow -/

theorem ach_check_achievements (s : State) :
    s.player.achievements ⊆ (check_achievements s).player.achievements := by
  rw [Finset.subset_iff]
  intro x hx
  unfold check_achievements
  dsimp only
  split_ifs <;> simp [Finset.mem_insert, hx]

theorem ach_random_event (s : State) (d : Difficulty) (r : EventRand) :
    s.player.achievements ⊆ ((random_event s d r).1).player.achievements := by
  unfold random_event
  dsimp only
  split_ifs <;> first | exact Finset.subset_insert _ _ | exact subset_rfl

theorem ach_applyDrink (s : State) :
    s.player.achievements ⊆ (applyDrink s).player.achievements := by
  unfold applyDrink
  split_ifs
  · exact Finset.subset_insert _ _
  · exact subset_rfl

theorem ach_applyMoveModerate (p : Params) (s : State) (r : MoveModRand) :
    s.player.achievements ⊆ ((applyMoveModerate p s r).1).player.achievements := by
  unfold applyMoveModerate
  dsimp only
  refine subset_trans ?_ (ach_random_event _ _ _)
  exact subset_rfl

theorem ach_applyMoveFast (p : Params) (s : State) (r : MoveFastRand) :
    s.player.achievements ⊆ ((applyMoveFast p s r).1).player.achievements := by
  unfold applyMoveFast
  dsimp only
  split_ifs
  · refine subset_trans ?_ (ach_random_event _ _ _)
    exact subset_rfl
  · exact subset_rfl

theorem ach_applyRest (p : Params) (s : State) (r : RestRand) :
    s.player.achievements ⊆ ((applyRest p s r).1).player.achievements := by
  unfold applyRest
  dsimp only
  split_ifs
  · refine subset_trans ?_ (ach_random_event _ _ _)
    exact subset_rfl
  · exact subset_rfl

theorem ach_applyUseBandage (s : State) (heal : ℕ) :
    s.player.achievements ⊆ (applyUseBandage s heal).player.achievements := by
  unfold applyUseBandage
  split_ifs <;> exact subset_rfl

theorem ach_checkEndings (m : ℚ) (s : State) :
    s.player.achievements ⊆ ((checkEndings m s).2).player.achievements := by
  unfold checkEndings
  split_ifs
  · exact ach_check_achievements _
  · exact ach_check_achievements _
  · exact ach_check_achievements _
  · exact ach_check_achievements _
  · refine subset_trans ?_ (ach_check_achievements _)
    exact Finset.subset_insert _ _
  · exact ach_check_achievements _

theorem ach_turn (p : Params) (s : State) (a : Action) :
    s.player.achievements ⊆ ((turn p s a).2).player.achievements := by
  cases a with
  | drink => exact subset_trans (ach_applyDrink s) (ach_checkEndings _ _)
  | moveModerate r => exact subset_trans (ach_applyMoveModerate p s r) (ach_checkEndings _ _)
  | moveFast r => exact subset_trans (ach_applyMoveFast p s r) (ach_checkEndings _ _)
  | rest r => exact subset_trans (ach_applyRest p s r) (ach_checkEndings _ _)
  | useBandage heal => exact subset_trans (ach_applyUseBandage s heal) (ach_checkEndings _ _)
  | status => exact subset_rfl
  | save => exact subset_rfl
  | quit => exact ach_check_achievements _

theorem ach_run (p : Params) (acts : List Action) (s : State) :
    s.player.achievements ⊆ (run p s acts).player.achievements := by
  induction acts generalizing s with
  | nil => exact subset_rfl
  | cons a as ih => exact subset_trans (ach_turn p s a) (ih _)

/-- C8: across any session, each single operation (an action with its
random event and achievement re-check) and hence any sequence of them only
ever adds achievements: the old set is a subset of the new one and its
size never decreases. -/
theorem c8_achievements_monotone (p : Params) (s : State) (a : Action) (acts : List Action) :
    s.player.achievements ⊆ ((turn p s a).2).player.achievements ∧
    s.player.achievements ⊆ (run p s acts).player.achievements ∧
    s.player.achievements.card ≤ (run p s acts).player.achievements.card :=
  ⟨ach_turn p s a, ach_run p acts s, Finset.card_le_card (ach_run p acts s)⟩

/-! ### C1: the random-event roll partition -/

/-- The event partition exactly as claim C1 words it: every bucket's
ceiling is the truncated scaled bound, and every bucket's lower end is the
previous bucket's scaled bound, exclusive (Supply `(3, ⌊8m⌋]`, Sandstorm
`(⌊8m⌋, ⌊18m⌋]`, Bandits `(⌊18m⌋, ⌊27m⌋]`, Camel sickness
`(⌊27m⌋, ⌊32m⌋]`). -/
def claimEventKind (d : Difficulty) (roll : Int) : Option EventKind :=
  if roll ≤ bucketCeil 3 d then some .oasis
  else if 3 < roll ∧ roll ≤ bucketCeil 8 d then some .supply
  else if bucketCeil 8 d < roll ∧ roll ≤ bucketCeil 18 d then some .sandstorm
  else if bucketCeil 18 d < roll ∧ roll ≤ bucketCeil 27 d then some .bandits
  else if bucketCeil 27 d < roll ∧ roll ≤ bucketCeil 32 d then some .sickness
  else none

/-- Counterexample to C1 as stated: under EASY a roll of 7 falls in the
claim's Sandstorm range `(⌊8·0.8⌋, ⌊18·0.8⌋] = (6, 14]`, but the code's
Sandstorm test demands `9 <= roll`, so the code produces no event. -/
theorem c1_counterexample :
    claimEventKind .EASY 7 = some .sandstorm ∧
    eventKind .EASY 7 = none ∧
    randint 1 100 6 = 7 ∧
    (random_event (initState .EASY) .EASY ⟨6, 0, false, 0, 0, 0, false, 0, 0, 0, 0⟩).2 = none := by
  obtain ⟨e3, e8, e18, e27, e32, -⟩ := bucketCeil_values
  have hek : eventKind .EASY 7 = none := by
    norm_num [eventKind, e3, e8, e18, e27, e32]
  refine ⟨?_, hek, by decide, ?_⟩
  · norm_num [claimEventKind, e3, e8, e18]
  · rw [random_event_kind]
    have h7 : randint 1 100 6 = 7 := by decide
    rw [h7, hek]

/-- The partition the code actually implements, written as disjoint
ranges: every bucket's lower end is its fixed, unscaled source constant
(Supply 4, Sandstorm 9, Bandits 19, Camel sickness 28), raised past the
previous scaled ceiling by the first-match priority. -/
def amendedEventKind (d : Difficulty) (roll : Int) : Option EventKind :=
  if roll ≤ bucketCeil 3 d then some .oasis
  else if max 4 (bucketCeil 3 d + 1) ≤ roll ∧ roll ≤ bucketCeil 8 d then some .supply
  else if max 9 (bucketCeil 8 d + 1) ≤ roll ∧ roll ≤ bucketCeil 18 d then some .sandstorm
  else if max 19 (bucketCeil 18 d + 1) ≤ roll ∧ roll ≤ bucketCeil 27 d then some .bandits
  else if max 28 (bucketCeil 27 d + 1) ≤ roll ∧ roll ≤ bucketCeil 32 d then some .sickness
  else none

/-- C1 (amended): for every difficulty and roll in [1,100] the resolver
selects by the priority cascade whose ceilings are the truncated scaled
bounds but whose lower ends are the fixed constants 4 / 9 / 19 / 28 — not
the previous scaled bounds — so rolls between a shrunken ceiling and the
next fixed lower end produce no event; and `random_event` classifies its
draw exactly by this partition. -/
theorem c1_event_buckets (d : Difficulty) (s : State) (r : EventRand) (roll : Int)
    (hlo : 1 ≤ roll) (hhi : roll ≤ 100) :
    eventKind d roll = amendedEventKind d roll ∧
    (random_event s d r).2 = eventKind d (randint 1 100 r.roll) := by
  obtain ⟨e3, e8, e18, e27, e32, n3, n8, n18, n27, n32, a3, a8, a18, a27, a32⟩ :=
    bucketCeil_values
  refine ⟨?_, random_event_kind s d r⟩
  unfold eventKind amendedEventKind
  cases d
  · rw [e3, e8, e18, e27, e32]
    split_ifs <;> first | rfl | omega
  · rw [n3, n8, n18, n27, n32]
    split_ifs <;> first | rfl | omega
  · rw [a3, a8, a18, a27, a32]
    split_ifs <;> first | rfl | omega

/-- Witness for C1 (amended) at EASY difficulty and roll 7. -/
theorem c1_event_buckets_witness :
    eventKind .EASY 7 = amendedEventKind .EASY 7 ∧
    (random_event (initState .EASY) .EASY ⟨6, 0, false, 0, 0, 0, false, 0, 0, 0, 0⟩).2 =
      eventKind .EASY (randint 1 100 (6 : ℕ)) :=
  c1_event_buckets .EASY (initState .EASY) ⟨6, 0, false, 0, 0, 0, false, 0, 0, 0, 0⟩ 7
    (by norm_num) (by norm_num)

/-! ### C5: drinking with no water -/

theorem mem_ite_insert {x y : String} {t : Finset String} (c : Prop) [Decidable c] (h : x ∈ t) :
    x ∈ (if c then insert y t else t) := by
  split_ifs
  · exact Finset.mem_insert_of_mem h
  · exact h

theorem escape_mem_of_closed {s : State} (hach : check_achievements s = s)
    (hd : TOTAL_DISTANCE ≤ s.player.distance) : "Escape!" ∈ s.player.achievements := by
  have h := congrArg (fun t => t.player.achievements) hach
  dsimp only at h
  rw [← h]
  unfold check_achievements
  dsimp only
  apply mem_ite_insert
  apply mem_ite_insert
  apply mem_ite_insert
  apply mem_ite_insert
  rw [if_pos hd]
  exact Finset.mem_insert_self _ _

theorem setScore_eq_self {m : ℚ} {s : State}
    (h : s.player.score = calculate_score s.player s.camel m) : setScore m s = s := by
  unfold setScore
  rw [← h]

theorem addEscape_eq_self {s : State} (h : "Escape!" ∈ s.player.achievements) :
    addEscape s = s := by
  unfold addEscape
  rw [Finset.insert_eq_self.mpr h]

/-- A state with no water whose achievement set is not yet closed under
`check_achievements`, refuting C5 as stated. -/
def noWaterState : State := ⟨⟨0, 100, 0, 0, 1, 0, ∅, 0⟩, ⟨0, 100, false⟩, ⟨20⟩⟩

/-- Counterexample to C5 as stated: with 0 water the `A` branch itself is a
no-op, but the `game_loop` iteration still re-runs `check_achievements`
(lines 380-383), so from this state the Drink command adds "Tough Ride" and
"Pristine" — the state is not unchanged. -/
theorem c5_counterexample :
    noWaterState.player.water = 0 ∧
    ((turn (newGameParams .NORMAL) noWaterState .drink).2).player.achievements ≠
      noWaterState.player.achievements :=
  ⟨rfl, by decide⟩

/-- A no-water state that is already closed under `check_achievements` and
whose score is current, witnessing the amended C5. -/
def c5state : State :=
  ⟨⟨1, 100, 0, 0, 1, 600, insert "Tough Ride" (insert "Pristine" ∅), 0⟩, ⟨0, 100, false⟩, ⟨20⟩⟩

/-- C5 (amended): if the water count is 0 and the state is already a fixed
point of the end-of-turn bookkeeping — its achievement set is closed under
`check_achievements` and its score is current, as holds after every
completed action of a session — then the Drink command leaves the whole
state unchanged, and in particular never unlocks "Hydrated". -/
theorem c5_drink_no_water (p : Params) (s : State) (hw : s.player.water = 0)
    (hach : check_achievements s = s)
    (hscore : s.player.score = calculate_score s.player s.camel p.diff_multiplier) :
    (turn p s .drink).2 = s ∧
    ("Hydrated" ∉ s.player.achievements →
      "Hydrated" ∉ ((turn p s .drink).2).player.achievements) := by
  have hdr : applyDrink s = s := by
    unfold applyDrink
    rw [if_neg (by omega)]
  have hss : setScore p.diff_multiplier s = s := setScore_eq_self hscore
  have hmain : (turn p s .drink).2 = s := by
    show (checkEndings p.diff_multiplier (applyDrink s)).2 = s
    rw [hdr]
    unfold checkEndings
    split_ifs with c1 c2 c3 c4 c5
    · rw [hss]; exact hach
    · rw [hss]; exact hach
    · rw [hss]; exact hach
    · rw [hss]; exact hach
    · rw [hss, addEscape_eq_self (escape_mem_of_closed hach c5)]
      exact hach
    · rw [hach]; exact hss
  refine ⟨hmain, fun hn => ?_⟩
  rw [hmain]
  exact hn

/-- Witness for the amended C5 at the concrete closed no-water state. -/
theorem c5_drink_no_water_witness :
    (turn (newGameParams .NORMAL) c5state .drink).2 = c5state ∧
    ("Hydrated" ∉ c5state.player.achievements →
      "Hydrated" ∉ ((turn (newGameParams .NORMAL) c5state .drink).2).player.achievements) :=
  c5_drink_no_water (newGameParams .NORMAL) c5state (by decide) (by decide) (by
    show (600 : Int) = calculate_score c5state.player c5state.camel
      (newGameParams .NORMAL).diff_multiplier
    unfold calculate_score
    dsimp only [c5state, newGameParams]
    rw [show (insert "Tough Ride" (insert "Pristine" (∅ : Finset String))).card = 2 from by decide]
    rw [pytrunc_eq_floor (by norm_num)]
    norm_num)

/-! ### C6: terminal-condition order and the "Escape!" unlock -/

/-- A winning state (distance 200) with an empty achievement set. -/
def winState : State := ⟨⟨0, 100, 200, 0, 1, 0, ∅, 0⟩, ⟨0, 100, false⟩, ⟨20⟩⟩

/-- Counterexample to C6 as stated: the win branch computes the final score
*before* adding "Escape!" and never recomputes it, so from `winState` the
recorded final score is the one of the Escape-less achievement set (3300),
not the score of any state containing "Escape!" (which would be 3450). -/
theorem c6_counterexample :
    (checkEndings 1.5 winState).1 = some .win ∧
    "Escape!" ∈ ((checkEndings 1.5 winState).2).player.achievements ∧
    ((checkEndings 1.5 winState).2).player.score =
      calculate_score winState.player winState.camel 1.5 ∧
    calculate_score winState.player winState.camel 1.5 ≠
      calculate_score (addEscape winState).player (addEscape winState).camel 1.5 := by
  have h1 : calculate_score winState.player winState.camel 1.5 = 3300 := by
    unfold calculate_score
    dsimp only [winState]
    rw [show (∅ : Finset String).card = 0 from rfl]
    rw [pytrunc_eq_floor (by norm_num)]
    norm_num
  have h2 : calculate_score (addEscape winState).player (addEscape winState).camel 1.5 = 3450 := by
    unfold calculate_score addEscape
    dsimp only [winState]
    rw [show (insert "Escape!" (∅ : Finset String)).card = 1 from by decide]
    rw [pytrunc_eq_floor (by norm_num)]
    norm_num
  refine ⟨by decide, by decide, rfl, ?_⟩
  rw [h1, h2]
  decide

/-- C6 (amended): the terminal checks run after every state-changing action
in the fixed priority order thirst ≥ 5, camel stamina ≥ 100, pursuit ≤ 0,
health ≤ 0, distance ≥ 200, the first true condition ending the session;
on a win the session ends with "Escape!" present in the final achievement
set, but the achievement is added only *after* the final score has been
computed, so the recorded score is `calculate_score` of the pre-"Escape!"
state. -/
theorem c6_terminal_order (m : ℚ) (s : State) :
    (5 ≤ s.player.thirst → (checkEndings m s).1 = some .thirstDeath) ∧
    (s.player.thirst < 5 → 100 ≤ s.camel.stamina → (checkEndings m s).1 = some .stranded) ∧
    (s.player.thirst < 5 → s.camel.stamina < 100 → s.officers.distance_behind ≤ 0 →
      (checkEndings m s).1 = some .captured) ∧
    (s.player.thirst < 5 → s.camel.stamina < 100 → 0 < s.officers.distance_behind →
      s.player.health ≤ 0 → (checkEndings m s).1 = some .woundDeath) ∧
    (s.player.thirst < 5 → s.camel.stamina < 100 → 0 < s.officers.distance_behind →
      0 < s.player.health → TOTAL_DISTANCE ≤ s.player.distance →
      (checkEndings m s).1 = some .win ∧
      "Escape!" ∈ ((checkEndings m s).2).player.achievements ∧
      ((checkEndings m s).2).player.score = calculate_score s.player s.camel m) ∧
    (s.player.thirst < 5 → s.camel.stamina < 100 → 0 < s.officers.distance_behind →
      0 < s.player.health → s.player.distance < TOTAL_DISTANCE →
      (checkEndings m s).1 = none) := by
  unfold checkEndings
  refine ⟨fun h1 => ?_, fun h1 h2 => ?_, fun h1 h2 h3 => ?_, fun h1 h2 h3 h4 => ?_,
    fun h1 h2 h3 h4 h5 => ?_, fun h1 h2 h3 h4 h5 => ?_⟩
  · rw [if_pos h1]
  · rw [if_neg (not_le.mpr h1), if_pos h2]
  · rw [if_neg (not_le.mpr h1), if_neg (not_le.mpr h2), if_pos h3]
  · rw [if_neg (not_le.mpr h1), if_neg (not_le.mpr h2), if_neg (not_le.mpr h3), if_pos h4]
  · rw [if_neg (not_le.mpr h1), if_neg (not_le.mpr h2), if_neg (not_le.mpr h3),
      if_neg (not_le.mpr h4), if_pos h5]
    exact ⟨rfl,
      Finset.mem_of_subset (ach_check_achievements _) (Finset.mem_insert_self _ _), rfl⟩
  · rw [if_neg (not_le.mpr h1), if_neg (not_le.mpr h2), if_neg (not_le.mpr h3),
      if_neg (not_le.mpr h4), if_neg (not_le.mpr h5)]

/-- Witness for the amended C6: the win clause fires at `winState`. -/
theorem c6_terminal_order_witness :
    (checkEndings 1.5 winState).1 = some .win ∧
    "Escape!" ∈ ((checkEndings 1.5 winState).2).player.achievements ∧
    ((checkEndings 1.5 winState).2).player.score =
      calculate_score winState.player winState.camel 1.5 :=
  (c6_terminal_order 1.5 winState).2.2.2.2.1 (by decide) (by decide) (by decide) (by decide)
    (by decide)

end Gobi
